import Mathlib

/-!
Verification of `person_tracker_osc.py` (GrandMa3MitComputerVision).

The program is a single-threaded polling loop: capture a frame, run pose
detection, extract the nose landmark of the first detected pose, clamp its
normalized coordinates to [0,1], publish them as two OSC/UDP messages, and
render an overlay.  Python floats are embedded as rationals (ℚ); the
fallible landmark indexing (`landmarks[0]`) is embedded as `Option`;
the OSC transport is an explicit oracle so that the try/except in
`send_osc_data` can be modelled.
-/

/-- One MediaPipe normalized landmark (x, y, z components as used by the
tracker; the nose is landmark index 0). -/
structure Landmark where
  x : ℚ
  y : ℚ
  z : ℚ
deriving DecidableEq, Repr

/-- A detected pose: an ordered list of landmarks.  MediaPipe always
returns a fixed-size (33-element) list per pose; the embedding keeps the
list arbitrary so the partiality of `landmarks[0]` stays visible. -/
abbrev Pose := List Landmark

/-- The result of `detector.detect_for_video`: a (possibly empty) list of
poses.  `num_poses=1`, so in practice the list has length ≤ 1, but the
code only tests truthiness of the list. -/
structure DetectionResult where
  pose_landmarks : List Pose
deriving DecidableEq, Repr

/-- Clamping as done in `get_closest_person_position`:
`max(0.0, min(1.0, v))`. -/
def clamp01 (v : ℚ) : ℚ := max 0 (min 1 v)

/-- Embeds `PersonTrackerOSC.get_closest_person_position`: reads `landmarks[0]`
(the nose) and clamps x and y independently to [0, 1].  Indexing an empty
list raises `IndexError` in Python, embedded as `none`. -/
def get_closest_person_position (landmarks : Pose) : Option (ℚ × ℚ) :=
  match landmarks with
  | [] => none
  | nose :: _ => some (clamp01 nose.x, clamp01 nose.y)

/-- One outbound OSC message: an address tag and a single float payload. -/
structure OscMessage where
  address : String
  value : ℚ
deriving DecidableEq, Repr

/-- The x-coordinate message sent by `send_osc_data`. -/
def msg_x (x : ℚ) : OscMessage := ⟨"/stage/person1/x", x⟩

/-- The y-coordinate message sent by `send_osc_data`. -/
def msg_y (y : ℚ) : OscMessage := ⟨"/stage/person1/y", y⟩

/-- Outcome of one `osc_client.send_message` call: the datagram was
handed to the transport, or the call raised an exception `e`. -/
inductive TransportOutcome
  | delivered
  | raised (e : String)
deriving DecidableEq, Repr

/-- Embeds `PersonTrackerOSC.send_osc_data` with the transport made explicit:
the x message is sent first, then the y message, inside a single
`try`/`except` that catches any exception and prints `OSC Error: {e}`.
Returns (datagrams actually sent, log lines printed).  A raising send
delivers nothing and aborts the remaining send of the `try` block; the
function itself never propagates an error. -/
def send_osc_data_t (t1 t2 : TransportOutcome) (x y : ℚ) :
    List OscMessage × List String :=
  match t1 with
  | .raised e => ([], ["OSC Error: " ++ e])
  | .delivered =>
    match t2 with
    | .raised e => ([msg_x x], ["OSC Error: " ++ e])
    | .delivered => ([msg_x x, msg_y y], [])

/-- Specializes `send_osc_data_t` to a transport that does not fail. -/
def send_osc_data (x y : ℚ) : List OscMessage :=
  (send_osc_data_t .delivered .delivered x y).1

/-- The mutable tracker fields touched by the main loop
(`last_x`, `last_y`, `person_detected`, `timestamp_ms`). -/
structure TrackerState where
  last_x : ℚ
  last_y : ℚ
  person_detected : Bool
  timestamp_ms : ℕ
deriving DecidableEq, Repr

/-- The tracking state set up by `PersonTrackerOSC.__init__`:
`last_x = last_y = 0.5`, no person detected, timestamp counter 0. -/
def init_tracker_state : TrackerState :=
  { last_x := 1/2, last_y := 1/2, person_detected := false, timestamp_ms := 0 }

/-- Observable output of one iteration of the main loop body:
the updated state, the timestamp passed to `detect_for_video`, the
datagrams sent, the OSC error lines logged, and the coordinates passed
to `draw_info_overlay`. -/
structure StepOutput where
  state : TrackerState
  ts : ℕ
  sent : List OscMessage
  log : List String
  display : ℚ × ℚ
deriving DecidableEq, Repr

/-- The per-frame body of `PersonTrackerOSC.run` (after a successful
camera read), with the detector's answer and the transport outcomes as
inputs: increment `timestamp_ms` by 33, then — if `pose_landmarks` is
truthy — set `person_detected`, extract the clamped nose position of the
first pose, store it in `last_x`/`last_y` and publish it; otherwise clear
`person_detected` and send nothing.  Either way `draw_info_overlay` is
called with the (possibly updated) `last_x`/`last_y`.  `none` is the
uncaught `IndexError` from `landmarks[0]` on an empty pose. -/
def process_frame_t (t1 t2 : TransportOutcome) (det : DetectionResult)
    (s : TrackerState) : Option StepOutput :=
  let s0 := { s with timestamp_ms := s.timestamp_ms + 33 }
  match det.pose_landmarks with
  | [] =>
    let s1 := { s0 with person_detected := false }
    some { state := s1, ts := s0.timestamp_ms, sent := [], log := [],
           display := (s1.last_x, s1.last_y) }
  | landmarks :: _ =>
    match get_closest_person_position landmarks with
    | none => none
    | some (x, y) =>
      let s1 := { s0 with person_detected := true, last_x := x, last_y := y }
      let sd := send_osc_data_t t1 t2 x y
      some { state := s1, ts := s0.timestamp_ms, sent := sd.1, log := sd.2,
             display := (s1.last_x, s1.last_y) }

/-- The per-frame loop body when the transport does not fail. -/
def process_frame (det : DetectionResult) (s : TrackerState) :
    Option StepOutput :=
  process_frame_t .delivered .delivered det s

/-- Run the loop body over a list of per-frame detector answers
(transport succeeding), collecting each frame's `StepOutput`; `none`
means an uncaught `IndexError` aborted the run. -/
def run_frames : List DetectionResult → TrackerState →
    Option (TrackerState × List StepOutput)
  | [], s => some (s, [])
  | d :: ds, s =>
    match process_frame d s with
    | none => none
    | some out =>
      match run_frames ds out.state with
      | none => none
      | some (sf, outs) => some (sf, out :: outs)

/-- The clamped nose position of the most recent detection in a frame
sequence (later frames take precedence), if any frame detected a person. -/
def last_detected_position : List DetectionResult → Option (ℚ × ℚ)
  | [] => none
  | d :: ds =>
    match last_detected_position ds with
    | some p => some p
    | none =>
      match d.pose_landmarks with
      | [] => none
      | landmarks :: _ => get_closest_person_position landmarks

/-- Detector contract from the data model: every reported pose is a
fixed-size, hence non-empty, landmark list. -/
def DetectionResult.wf (d : DetectionResult) : Prop :=
  ∀ p ∈ d.pose_landmarks, p ≠ []

instance (d : DetectionResult) : Decidable d.wf := by
  unfold DetectionResult.wf; infer_instance

/-- Embeds `PersonTrackerOSC.__init__`, reduced to its one fallible step: after
creating the detector and the OSC client, `cv2.VideoCapture(camera_id)`
is opened; if `cap.isOpened()` is false the constructor raises
`RuntimeError(f"Cannot open camera {camera_id}")`, otherwise the tracking
state is initialized. -/
def tracker_init (camera_opens : Bool) (camera_id : ℕ) :
    Except String TrackerState :=
  if camera_opens then .ok init_tracker_state
  else .error ("Cannot open camera " ++ toString camera_id)

/-- Embeds `main()`: construct the tracker, then run the loop over the given
detector answers.  A constructor failure propagates before any frame is
processed. -/
def tracker_main (camera_opens : Bool) (camera_id : ℕ)
    (dets : List DetectionResult) :
    Except String (TrackerState × List StepOutput) :=
  match tracker_init camera_opens camera_id with
  | .error e => .error e
  | .ok s =>
    match run_frames dets s with
    | none => .error "IndexError: list index out of range"
    | some r => .ok r

/-- All datagrams sent over a whole `tracker_main` execution. -/
def main_sent (camera_opens : Bool) (camera_id : ℕ)
    (dets : List DetectionResult) : List OscMessage :=
  match tracker_main camera_opens camera_id dets with
  | .error _ => []
  | .ok (_, outs) => outs.foldr (fun o acc => o.sent ++ acc) []

/-- The FPS-estimation fields of the tracker
(`fps`, `frame_count`, `start_time`). -/
structure FpsState where
  fps : ℚ
  frame_count : ℕ
  start_time : ℚ
deriving DecidableEq, Repr

/-- Embeds `PersonTrackerOSC.update_fps`: increment the frame counter, compute
`elapsed = time.time() - start_time` (first clock read `t_now`); if
`elapsed > 1.0`, set `fps = frame_count / elapsed`, zero the counter and
restart the window at a second clock read `t_reset`. -/
def update_fps (t_now t_reset : ℚ) (s : FpsState) : FpsState :=
  let fc := s.frame_count + 1
  let elapsed := t_now - s.start_time
  if elapsed > 1 then
    { fps := (fc : ℚ) / elapsed, frame_count := 0, start_time := t_reset }
  else
    { s with frame_count := fc }

/-- One event of the main loop's environment per iteration: the camera
read fails, or a frame arrives with the detector's answer and whether
`cv2.waitKey` reports the 'q' key this iteration. -/
inductive FrameEvent
  | read_failure
  | frame (det : DetectionResult) (quit_key : Bool)
deriving DecidableEq, Repr

/-- Why the `while` loop of `run` ended: camera read failure, 'q'
keypress, an exception escaping the loop body, or (an artifact of the
finite script) the script ran out while the loop would have continued. -/
inductive ExitPath
  | read_fail
  | quit
  | exn (e : String)
  | script_end
deriving DecidableEq, Repr

/-- Externally visible events of a `run` execution: a datagram sent, the
`cleanup` body executed, or an exception propagating out of `run`. -/
inductive TraceEvent
  | sent (m : OscMessage)
  | cleanup_done
  | raised (e : String)
deriving DecidableEq, Repr

/-- Result of executing `PersonTrackerOSC.run` on a finite script. -/
structure RunResult where
  exit : ExitPath
  state : TrackerState
  iterations : ℕ
  trace : List TraceEvent
deriving DecidableEq, Repr

/-- The `while self.cap.isOpened()` loop of `run` (the part inside the
`try`): each iteration reads a frame (breaking on failure), processes it
(an `IndexError` escapes the loop), and finally polls `cv2.waitKey`,
breaking on 'q'.  Note the frame is fully processed — including the
publish — before the quit check. -/
def run_loop : List FrameEvent → TrackerState → RunResult
  | [], s => ⟨.script_end, s, 0, []⟩
  | .read_failure :: _, s => ⟨.read_fail, s, 1, []⟩
  | .frame det q :: rest, s =>
    match process_frame det s with
    | none =>
      ⟨.exn "IndexError: list index out of range",
       { s with timestamp_ms := s.timestamp_ms + 33, person_detected := true },
       1, []⟩
    | some out =>
      let sent_tr := out.sent.map TraceEvent.sent
      if q then ⟨.quit, out.state, 1, sent_tr⟩
      else
        let r := run_loop rest out.state
        ⟨r.exit, r.state, r.iterations + 1, sent_tr ++ r.trace⟩

/-- Embeds `PersonTrackerOSC.run`: the loop wrapped in `try ... finally
self.cleanup()` — the cleanup body (release camera, destroy windows,
close detector) runs once on the way out, after which a pending
exception propagates. -/
def run_method (script : List FrameEvent) (s : TrackerState) : RunResult :=
  let r := run_loop script s
  { r with trace := r.trace ++ [.cleanup_done] ++
      (match r.exit with | .exn e => [.raised e] | _ => []) }

/-- Recognizer for the cleanup event in a trace. -/
def is_cleanup : TraceEvent → Bool
  | .cleanup_done => true
  | _ => false

/-- Number of times the cleanup body ran in a trace. -/
def cleanup_count (tr : List TraceEvent) : ℕ := tr.countP is_cleanup

/-! ## Helper lemmas -/

/-- The extractor yields a result exactly on non-empty landmark lists. -/
theorem get_closest_person_position_eq_none_iff (landmarks : Pose) :
    get_closest_person_position landmarks = none ↔ landmarks = [] := by
  cases landmarks <;> simp [get_closest_person_position]

/-- Under the detector contract (every reported pose non-empty), the loop
body never raises, whatever the transport does. -/
theorem process_frame_t_isSome (t1 t2 : TransportOutcome)
    (det : DetectionResult) (s : TrackerState) (hwf : det.wf) :
    (process_frame_t t1 t2 det s).isSome = true := by
  obtain ⟨pl⟩ := det
  cases pl with
  | nil => simp [process_frame_t]
  | cons p rest =>
    cases p with
    | nil =>
      exact absurd rfl (hwf [] (List.mem_cons_self _ _))
    | cons nose r =>
      simp [process_frame_t, get_closest_person_position]

/-! ## Claims -/

/-- C1: for every landmark list whose nose landmark (index 0) has
coordinates (x, y), `get_closest_person_position` returns the pair
`(max 0 (min 1 x), max 0 (min 1 y))`, both components lying in [0, 1];
in particular for a nose at (1.5, -0.2) it returns (1.0, 0.0). -/
theorem claim_C1 :
    (∀ (nose : Landmark) (rest : List Landmark),
      get_closest_person_position (nose :: rest) =
        some (max 0 (min 1 nose.x), max 0 (min 1 nose.y)) ∧
      0 ≤ clamp01 nose.x ∧ clamp01 nose.x ≤ 1 ∧
      0 ≤ clamp01 nose.y ∧ clamp01 nose.y ≤ 1) ∧
    get_closest_person_position [⟨3/2, -(1/5), 0⟩] = some (1, 0) := by
  constructor
  · intro nose rest
    refine ⟨rfl, le_max_left 0 _, max_le zero_le_one (min_le_left 1 _),
      le_max_left 0 _, max_le zero_le_one (min_le_left 1 _)⟩
  · norm_num [get_closest_person_position, clamp01]

/-- C8: the clamp applied by the extractor is idempotent on ℚ:
`clamp01 (clamp01 v) = clamp01 v`. -/
theorem claim_C8 (v : ℚ) : clamp01 (clamp01 v) = clamp01 v := by
  unfold clamp01
  rw [min_eq_right (max_le zero_le_one (min_le_left 1 v)),
    max_eq_right (le_max_left 0 (min 1 v))]

/-- C2: on a frame where the detector reports at least one pose (with its
fixed-size, non-empty landmark list), the loop body sends exactly two
messages — `/stage/person1/x` with the clamped x and `/stage/person1/y`
with the clamped y; on a frame with no pose it sends zero messages. -/
theorem claim_C2 (det : DetectionResult) (s : TrackerState) :
    (det.pose_landmarks = [] →
      ∃ out, process_frame det s = some out ∧ out.sent = []) ∧
    (∀ (nose : Landmark) (restL : List Landmark) (restP : List Pose),
      det.pose_landmarks = (nose :: restL) :: restP →
      ∃ out, process_frame det s = some out ∧
        out.sent = [msg_x (clamp01 nose.x), msg_y (clamp01 nose.y)] ∧
        out.sent.length = 2) := by
  obtain ⟨pl⟩ := det
  constructor
  · intro h
    subst h
    exact ⟨_, rfl, rfl⟩
  · intro nose restL restP h
    subst h
    exact ⟨_, rfl, rfl, rfl⟩

/-- Witness for C2 at a concrete detected frame and a concrete empty
frame. -/
theorem claim_C2_witness :
    (∃ out,
      process_frame ⟨[[⟨3/2, -(1/5), 0⟩]]⟩ init_tracker_state = some out ∧
      out.sent = [msg_x (clamp01 (3/2)), msg_y (clamp01 (-(1/5)))] ∧
      out.sent.length = 2) ∧
    (∃ out, process_frame ⟨[]⟩ init_tracker_state = some out ∧
      out.sent = []) :=
  ⟨(claim_C2 ⟨[[⟨3/2, -(1/5), 0⟩]]⟩ init_tracker_state).2
      ⟨3/2, -(1/5), 0⟩ [] [] rfl,
   (claim_C2 ⟨[]⟩ init_tracker_state).1 rfl⟩

/-- C4: if the camera cannot be opened, the constructor raises
`RuntimeError("Cannot open camera {id}")` before the loop starts: the
whole execution is that error, no frame is processed and no datagram is
ever sent. -/
theorem claim_C4 (camera_id : ℕ) (dets : List DetectionResult) :
    tracker_main false camera_id dets =
      .error ("Cannot open camera " ++ toString camera_id) ∧
    main_sent false camera_id dets = [] := by
  constructor <;> simp [tracker_main, tracker_init, main_sent]

/-- C5: a transport failure during the two publish sends is caught inside
`send_osc_data`: the loop body still returns normally (same success as
with a working transport), the tracker state and the displayed
coordinates are unchanged by the failure, and the exception is logged as
an `OSC Error:` line. -/
theorem claim_C5 (t1 t2 : TransportOutcome) (det : DetectionResult)
    (s : TrackerState) :
    (process_frame_t t1 t2 det s).isSome = (process_frame det s).isSome ∧
    (process_frame_t t1 t2 det s).map StepOutput.state =
      (process_frame det s).map StepOutput.state ∧
    (process_frame_t t1 t2 det s).map StepOutput.display =
      (process_frame det s).map StepOutput.display ∧
    (∀ e out, det.pose_landmarks ≠ [] → t1 = .raised e →
      process_frame_t t1 t2 det s = some out →
      ("OSC Error: " ++ e) ∈ out.log) ∧
    (∀ e out, det.pose_landmarks ≠ [] → t1 = .delivered →
      t2 = .raised e →
      process_frame_t t1 t2 det s = some out →
      ("OSC Error: " ++ e) ∈ out.log) := by
  obtain ⟨pl⟩ := det
  match pl with
  | [] =>
    exact ⟨rfl, rfl, rfl,
      fun e out h => absurd rfl h,
      fun e out h => absurd rfl h⟩
  | [] :: rest =>
    refine ⟨rfl, rfl, rfl, ?_, ?_⟩
    · intro e out _ _ hsome
      simp [process_frame_t, get_closest_person_position] at hsome
    · intro e out _ _ _ hsome
      simp [process_frame_t, get_closest_person_position] at hsome
  | (nose :: r) :: rest =>
    refine ⟨rfl, rfl, rfl, ?_, ?_⟩
    · rintro e out - rfl hsome
      simp only [process_frame_t, get_closest_person_position,
        send_osc_data_t, Option.some.injEq] at hsome
      simp [← hsome]
    · rintro e out - rfl rfl hsome
      simp only [process_frame_t, get_closest_person_position,
        send_osc_data_t, Option.some.injEq] at hsome
      simp [← hsome]

/-- Witness for C5: with the first send raising "boom" on a detected
frame, the error line is logged. -/
theorem claim_C5_witness :
    ∃ out,
      process_frame_t (.raised "boom") .delivered ⟨[[⟨1/2, 1/2, 0⟩]]⟩
        init_tracker_state = some out ∧
      ("OSC Error: " ++ "boom") ∈ out.log := by
  refine ⟨_, rfl, ?_⟩
  exact (claim_C5 (.raised "boom") .delivered ⟨[[⟨1/2, 1/2, 0⟩]]⟩
    init_tracker_state).2.2.2.1 "boom" _ (by simp) rfl rfl

/-- C6: the FPS estimate changes only when at least one second of
wall-clock time elapsed since the window start; on an update it becomes
frames-in-window divided by the elapsed time with the counter and the
window start reset; within the window (elapsed ≤ 1s) the reported FPS is
unchanged. -/
theorem claim_C6 (t_now t_reset : ℚ) (s : FpsState) :
    (t_now - s.start_time ≤ 1 →
      update_fps t_now t_reset s =
        { s with frame_count := s.frame_count + 1 }) ∧
    (1 < t_now - s.start_time →
      update_fps t_now t_reset s =
        ⟨((s.frame_count + 1 : ℕ) : ℚ) / (t_now - s.start_time),
          0, t_reset⟩) ∧
    ((update_fps t_now t_reset s).fps ≠ s.fps →
      1 ≤ t_now - s.start_time) := by
  by_cases h : 1 < t_now - s.start_time
  · refine ⟨fun hle => absurd h (not_lt.mpr hle), fun _ => ?_,
      fun _ => h.le⟩
    simp [update_fps, h]
  · refine ⟨fun _ => ?_, fun h1 => absurd h1 h, fun hne => ?_⟩
    · simp [update_fps, h]
    · exact absurd (by simp [update_fps, h]) hne

/-- Witness for C6: a window of 2 seconds with one frame updates the
estimate to 0.5 FPS and resets the window. -/
theorem claim_C6_witness :
    update_fps 2 2 ⟨0, 0, 0⟩ = ⟨1/2, 0, 2⟩ := by
  have h := (claim_C6 2 2 ⟨0, 0, 0⟩).2.1 (by norm_num)
  rw [h]
  norm_num

/-- After a successful run, `last_x`/`last_y` hold the clamped nose
position of the most recent detection, falling back to the starting
values when no frame detected a person. -/
theorem run_frames_last (dets : List DetectionResult) (s sf : TrackerState)
    (outs : List StepOutput) (h : run_frames dets s = some (sf, outs)) :
    (sf.last_x, sf.last_y) =
      (last_detected_position dets).getD (s.last_x, s.last_y) := by
  induction dets generalizing s outs with
  | nil =>
    simp [run_frames] at h
    simp [last_detected_position, h.1]
  | cons d ds ih =>
    cases hp : process_frame d s with
    | none => simp [run_frames, hp] at h
    | some out =>
      cases hr : run_frames ds out.state with
      | none => simp [run_frames, hp, hr] at h
      | some r =>
        obtain ⟨sf2, outs2⟩ := r
        simp [run_frames, hp, hr] at h
        obtain ⟨⟨rfl, -⟩, -⟩ := h
        have hih := ih out.state outs2 hr
        obtain ⟨pl⟩ := d
        match pl with
        | [] =>
          simp only [process_frame, process_frame_t, Option.some.injEq] at hp
          rw [hih, ← hp]
          cases hl : last_detected_position ds <;>
            simp [last_detected_position, hl]
        | [] :: rest =>
          simp [process_frame, process_frame_t,
            get_closest_person_position] at hp
        | (nose :: lr) :: rest =>
          simp only [process_frame, process_frame_t,
            get_closest_person_position, Option.some.injEq] at hp
          rw [hih, ← hp]
          cases hl : last_detected_position ds <;>
            simp [last_detected_position, hl, get_closest_person_position]

/-- C3: on a frame with no detection the loop publishes nothing and
displays the clamped coordinates of the most recent earlier detection —
(0.5, 0.5) if no person was ever detected; the [person at (0.3, 0.7),
no-person, no-person] sequence publishes two messages on frame 1, nothing
afterwards, and displays (0.3, 0.7) on frames 2 and 3. -/
theorem claim_C3 :
    (∀ (dets : List DetectionResult) (d : DetectionResult)
       (s1 : TrackerState) (outs : List StepOutput),
      d.pose_landmarks = [] →
      run_frames dets init_tracker_state = some (s1, outs) →
      ∃ out, process_frame d s1 = some out ∧ out.sent = [] ∧
        out.display = (last_detected_position dets).getD (1/2, 1/2)) ∧
    (run_frames [⟨[[⟨3/10, 7/10, 0⟩]]⟩, ⟨[]⟩, ⟨[]⟩]
        init_tracker_state).map
        (fun r => (r.2.map StepOutput.sent, r.2.map StepOutput.display)) =
      some ([[msg_x (3/10), msg_y (7/10)], [], []],
        [(3/10, 7/10), (3/10, 7/10), (3/10, 7/10)]) := by
  constructor
  · intro dets d s1 outs hnone hrun
    obtain ⟨pl⟩ := d
    simp only at hnone
    subst hnone
    refine ⟨_, rfl, rfl, ?_⟩
    have := run_frames_last dets init_tracker_state s1 outs hrun
    simpa [init_tracker_state] using this
  · norm_num [run_frames, process_frame, process_frame_t,
      get_closest_person_position, clamp01, send_osc_data_t,
      init_tracker_state, msg_x, msg_y]

/-- Witness for C3: after the one-frame run that detected (0.3, 0.7), a
no-person frame publishes nothing and displays (0.3, 0.7). -/
theorem claim_C3_witness :
    ∃ out,
      process_frame ⟨[]⟩ ⟨3/10, 7/10, true, 33⟩ = some out ∧
      out.sent = [] ∧
      out.display =
        (last_detected_position [⟨[[⟨3/10, 7/10, 0⟩]]⟩]).getD (1/2, 1/2) :=
  claim_C3.1 [⟨[[⟨3/10, 7/10, 0⟩]]⟩] ⟨[]⟩ ⟨3/10, 7/10, true, 33⟩
    [⟨⟨3/10, 7/10, true, 33⟩, 33, [msg_x (3/10), msg_y (7/10)], [],
      (3/10, 7/10)⟩]
    rfl
    (by norm_num [run_frames, process_frame, process_frame_t,
      get_closest_person_position, clamp01, send_osc_data_t,
      init_tracker_state, msg_x, msg_y])

/-- One loop iteration passes `timestamp_ms + 33` to `detect_for_video`
and stores that value back in the state. -/
theorem process_frame_ts (det : DetectionResult) (s : TrackerState)
    (out : StepOutput) (h : process_frame det s = some out) :
    out.ts = s.timestamp_ms + 33 ∧
    out.state.timestamp_ms = s.timestamp_ms + 33 := by
  obtain ⟨pl⟩ := det
  match pl with
  | [] =>
    simp only [process_frame, process_frame_t, Option.some.injEq] at h
    rw [← h]
    exact ⟨rfl, rfl⟩
  | [] :: rest =>
    simp [process_frame, process_frame_t,
      get_closest_person_position] at h
  | (nose :: lr) :: rest =>
    simp only [process_frame, process_frame_t,
      get_closest_person_position, Option.some.injEq] at h
    rw [← h]
    exact ⟨rfl, rfl⟩

/-- Across a successful run, the timestamps handed to `detect_for_video`
are `start + 33`, `start + 66`, ... in order. -/
theorem run_frames_ts (dets : List DetectionResult) (s sf : TrackerState)
    (outs : List StepOutput) (h : run_frames dets s = some (sf, outs)) :
    outs.map StepOutput.ts =
      (List.range dets.length).map
        (fun i => s.timestamp_ms + 33 * (i + 1)) := by
  induction dets generalizing s sf outs with
  | nil =>
    simp [run_frames] at h
    obtain ⟨rfl, rfl⟩ := h
    simp
  | cons d ds ih =>
    cases hp : process_frame d s with
    | none => simp [run_frames, hp] at h
    | some out =>
      cases hr : run_frames ds out.state with
      | none => simp [run_frames, hp, hr] at h
      | some r =>
        obtain ⟨sf2, outs2⟩ := r
        simp [run_frames, hp, hr] at h
        obtain ⟨rfl, rfl⟩ := h
        obtain ⟨hts, hst⟩ := process_frame_ts d s out hp
        have hih := ih out.state sf2 outs2 hr
        rw [List.map_cons, hih, hts, hst, List.length_cons,
          List.range_succ_eq_map, List.map_cons, List.map_map]
        refine congrArg₂ _ (by omega) (List.map_congr_left ?_)
        intro i _
        simp only [Function.comp]
        omega

/-- C7: starting from the freshly constructed tracker, the timestamp
passed to the video-mode inference call on the N-th frame (N ≥ 1) is
33·N — the counter starts at 0 and is bumped by exactly 33 before each
call — and the sequence of timestamps is strictly increasing (it depends
only on the frame index, not on wall-clock time, which is not even an
input of the loop body). -/
theorem claim_C7 (dets : List DetectionResult) (sf : TrackerState)
    (outs : List StepOutput)
    (h : run_frames dets init_tracker_state = some (sf, outs)) :
    outs.map StepOutput.ts =
      (List.range dets.length).map (fun i => 33 * (i + 1)) ∧
    List.Chain' (· < ·) (outs.map StepOutput.ts) := by
  have hm := run_frames_ts dets init_tracker_state sf outs h
  have hz : init_tracker_state.timestamp_ms = 0 := rfl
  rw [hz] at hm
  simp only [zero_add] at hm
  refine ⟨hm, ?_⟩
  rw [hm]
  refine List.Pairwise.chain' (List.Pairwise.map _ ?_ (List.pairwise_lt_range _))
  intro a b hab
  omega

/-- Witness for C7: a two-frame run yields the timestamps [33, 66]. -/
theorem claim_C7_witness :
    ([⟨⟨1/2, 1/2, false, 33⟩, 33, [], [], (1/2, 1/2)⟩,
      ⟨⟨1/2, 1/2, false, 66⟩, 66, [], [], (1/2, 1/2)⟩] :
        List StepOutput).map StepOutput.ts =
      (List.range ([⟨[]⟩, ⟨[]⟩] : List DetectionResult).length).map
        (fun i => 33 * (i + 1)) ∧
    List.Chain' (· < ·)
      (([⟨⟨1/2, 1/2, false, 33⟩, 33, [], [], (1/2, 1/2)⟩,
        ⟨⟨1/2, 1/2, false, 66⟩, 66, [], [], (1/2, 1/2)⟩] :
          List StepOutput).map StepOutput.ts) :=
  claim_C7 [⟨[]⟩, ⟨[]⟩] ⟨1/2, 1/2, false, 66⟩
    [⟨⟨1/2, 1/2, false, 33⟩, 33, [], [], (1/2, 1/2)⟩,
     ⟨⟨1/2, 1/2, false, 66⟩, 66, [], [], (1/2, 1/2)⟩]
    (by norm_num [run_frames, process_frame, process_frame_t,
      init_tracker_state])

/-- Inside the `while` loop itself, only `sent` events are emitted:
cleanup and exception propagation happen outside the loop. -/
theorem run_loop_trace_sent (script : List FrameEvent) (s : TrackerState) :
    ∀ t ∈ (run_loop script s).trace, ∃ m, t = TraceEvent.sent m := by
  induction script generalizing s with
  | nil => simp [run_loop]
  | cons ev rest ih =>
    cases ev with
    | read_failure => simp [run_loop]
    | frame det q =>
      cases hp : process_frame det s with
      | none => simp [run_loop, hp]
      | some out =>
        cases q with
        | true =>
          intro t ht
          simp only [run_loop, hp, if_pos] at ht
          obtain ⟨m, -, rfl⟩ := List.mem_map.mp ht
          exact ⟨m, rfl⟩
        | false =>
          intro t ht
          simp only [run_loop, hp, if_neg] at ht
          rcases List.mem_append.mp ht with hl | hr
          · obtain ⟨m, -, rfl⟩ := List.mem_map.mp hl
            exact ⟨m, rfl⟩
          · exact ih out.state t hr

/-- The loop body alone never runs cleanup and never lets an exception
event appear in its trace. -/
theorem run_loop_no_cleanup (script : List FrameEvent) (s : TrackerState) :
    cleanup_count (run_loop script s).trace = 0 ∧
    ∀ e, TraceEvent.raised e ∉ (run_loop script s).trace := by
  constructor
  · rw [cleanup_count, List.countP_eq_zero]
    intro t ht
    obtain ⟨m, rfl⟩ := run_loop_trace_sent script s t ht
    simp [is_cleanup]
  · intro e he
    obtain ⟨m, hm⟩ := run_loop_trace_sent script s _ he
    exact TraceEvent.noConfusion hm

/-- C9: on every exit of the main loop other than the script running out
(camera read failure, 'q' keypress, or an exception from the loop body)
the cleanup body executes exactly once; and a 'q' keypress on the first
frame exits the loop after exactly one iteration, with cleanup run once. -/
theorem claim_C9 (script : List FrameEvent) (s : TrackerState) :
    ((run_method script s).exit ≠ .script_end →
      cleanup_count (run_method script s).trace = 1) ∧
    (∀ det : DetectionResult, det.wf →
      (run_method [.frame det true] s).exit = .quit ∧
      (run_method [.frame det true] s).iterations = 1 ∧
      cleanup_count (run_method [.frame det true] s).trace = 1 ∧
      ∀ e, TraceEvent.raised e ∉
        (run_method [.frame det true] s).trace) := by
  have key : ∀ (sc : List FrameEvent) (st : TrackerState),
      cleanup_count (run_method sc st).trace = 1 := by
    intro sc st
    have h0 := (run_loop_no_cleanup sc st).1
    rw [run_method]
    simp only [cleanup_count, List.countP_append] at h0 ⊢
    rw [h0]
    cases hx : (run_loop sc st).exit <;> simp [is_cleanup]
  refine ⟨fun _ => key script s, ?_⟩
  intro det hwf
  obtain ⟨out, hp0⟩ := Option.isSome_iff_exists.mp
    (process_frame_t_isSome .delivered .delivered det s hwf)
  have hp : process_frame det s = some out := hp0
  refine ⟨?_, ?_, key _ _, ?_⟩
  · simp [run_method, run_loop, hp]
  · simp [run_method, run_loop, hp]
  · intro e
    have hnl := (run_loop_no_cleanup [.frame det true] s).2 e
    intro hmem
    rw [run_method] at hmem
    simp only [List.mem_append] at hmem
    rcases hmem with (hl | hc) | ht
    · exact hnl hl
    · simp at hc
    · revert ht
      simp only [run_loop, hp, if_pos]
      simp

/-- Witness for C9: a 'q' press on the first (person-free) frame. -/
theorem claim_C9_witness :
    (run_method [.frame ⟨[]⟩ true] init_tracker_state).exit = .quit ∧
    (run_method [.frame ⟨[]⟩ true] init_tracker_state).iterations = 1 ∧
    cleanup_count (run_method [.frame ⟨[]⟩ true]
      init_tracker_state).trace = 1 :=
  ⟨((claim_C9 [.frame ⟨[]⟩ true] init_tracker_state).2 ⟨[]⟩
      (by decide)).1,
   ((claim_C9 [.frame ⟨[]⟩ true] init_tracker_state).2 ⟨[]⟩
      (by decide)).2.1,
   ((claim_C9 [.frame ⟨[]⟩ true] init_tracker_state).2 ⟨[]⟩
      (by decide)).2.2.1⟩

/-- C10: the extractor yields a value exactly on non-empty landmark
lists (on the empty list the `landmarks[0]` access is an out-of-bounds
error); under the detector contract that reported poses are non-empty —
which the loop's truthiness guard combines with — the loop body never
hits that error. -/
theorem claim_C10 :
    (∀ landmarks : Pose,
      get_closest_person_position landmarks = none ↔ landmarks = []) ∧
    (∀ (det : DetectionResult) (s : TrackerState), det.wf →
      (process_frame det s).isSome = true) :=
  ⟨get_closest_person_position_eq_none_iff,
   fun det s hwf => process_frame_t_isSome .delivered .delivered det s hwf⟩

/-- Witness for C10: the extractor raises on the empty list and the
guarded loop body succeeds on a well-formed detection. -/
theorem claim_C10_witness :
    (get_closest_person_position [] = none ↔ ([] : Pose) = []) ∧
    (process_frame ⟨[[⟨0, 0, 0⟩]]⟩ init_tracker_state).isSome = true :=
  ⟨claim_C10.1 [],
   claim_C10.2 ⟨[[⟨0, 0, 0⟩]]⟩ init_tracker_state (by decide)⟩
